import Mathlib

/-!
# SpartaXForm: the Kinesis Firehose service decorator

A shallow embedding of `newFirehoseDecorator` (main.go).  The decorator receives
a CloudFormation template and a Lambda hook and adds three resources to the
template: an S3 bucket, an IAM role and a Kinesis Firehose delivery stream.

The Go code mutates the template in place and returns an `error`; here the
decorator is a pure function from the incoming template to the returned error
together with the template as it stands when the function returns.

The go-cloudformation and Sparta packages are libraries outside this
repository.  Their record types are transcribed with the fields the decorator
sets (every other field keeps its zero value), and the two name functions whose
bodies the decorator never sees (`StableResourceName`, `LogicalResourceName`)
are parameters of the development.
-/

set_option linter.unusedVariables false

namespace SpartaXForm

/-! ## go-cloudformation expressions -/

/-- The string-valued expression of a template (`gocf.StringExpr`): a literal or
one of the intrinsic functions `Ref`, `Fn::GetAtt` and `Fn::Join`. -/
inductive StringExpr where
  | Literal (s : String)
  | Ref (name : String)
  | GetAtt (resource : String) (name : String)
  | Join (separator : String) (items : List StringExpr)
  deriving Repr

mutual
/-- The logical names an expression points at through `Ref` or `Fn::GetAtt`,
left to right. -/
def StringExpr.refs : StringExpr → List String
  | .Literal _ => []
  | .Ref name => [name]
  | .GetAtt resource _ => [resource]
  | .Join _ items => StringExpr.refsAll items
/-- The logical names a list of expressions points at. -/
def StringExpr.refsAll : List StringExpr → List String
  | [] => []
  | e :: es => e.refs ++ StringExpr.refsAll es
end

mutual
/-- The literal text fragments of an expression, left to right. -/
def StringExpr.literals : StringExpr → List String
  | .Literal s => [s]
  | .Ref _ => []
  | .GetAtt _ _ => []
  | .Join _ items => StringExpr.literalsAll items
/-- The literal text fragments of a list of expressions. -/
def StringExpr.literalsAll : List StringExpr → List String
  | [] => []
  | e :: es => e.literals ++ StringExpr.literalsAll es
end

/-- The argument of the S3 ARN helpers, an `interface{}` in Go: the helpers
accept a plain bucket name, a string expression or the result of `gocf.Ref`. -/
inductive BucketValue where
  | name (s : String)
  | expr (e : StringExpr)
  | ref (logicalName : String)
  deriving Repr

/-- The expression a bucket value contributes to an ARN. -/
def BucketValue.toExpr : BucketValue → StringExpr
  | .name s => .Literal s
  | .expr e => e
  | .ref logicalName => .Ref logicalName

/-- Modelled from the spec: `spartaCF.S3ArnForBucket` is Sparta library code
outside this repository.  It yields the bucket-level pattern "arn(bucket)": the
S3 ARN head joined, with an empty separator, to the bucket value. -/
def S3ArnForBucket (bucket : BucketValue) : StringExpr :=
  .Join "" [.Literal "arn:aws:s3:::", bucket.toExpr]

/-- Modelled from the spec: `spartaCF.S3AllKeysArnForBucket` is Sparta library
code outside this repository.  It yields the all-keys pattern "arn(bucket)/*":
the parts of the bucket-level pattern followed by the literal "/*". -/
def S3AllKeysArnForBucket (bucket : BucketValue) : StringExpr :=
  .Join "" [.Literal "arn:aws:s3:::", bucket.toExpr, .Literal "/*"]

/-! ## IAM policy statements and the Sparta statement builder -/

/-- One clause `operator: {key: value}` of a statement's `Condition` object. -/
structure ConditionClause where
  operator : String
  key : String
  value : StringExpr
  deriving Repr

/-- The `Principal` object of a statement: the service principals. -/
structure Principal where
  Service : List String
  deriving Repr

/-- An IAM policy statement (`spartaIAM.PolicyStatement`, and the JSON objects
with the same keys).  `Resource` holds the resource patterns in order, `[]`
when the key is absent; `Principal` is `none` and `Condition` is `[]` when
absent. -/
structure PolicyStatement where
  Effect : String
  Action : List String
  Resource : List StringExpr
  Principal : Option Principal
  Condition : List ConditionClause
  deriving Repr

/-- Modelled from the spec: `sparta.KinesisFirehosePrincipal` is a constant of
the Sparta library, the service principal of Kinesis Firehose. -/
def KinesisFirehosePrincipal : String := "firehose.amazonaws.com"

/-- The state of `spartaIAMBuilder`: API calls, effect and condition. -/
structure IAMBuilder where
  apiCalls : List String
  effect : String
  condition : List ConditionClause
  deriving Repr

/-- Modelled from the spec: `spartaIAMBuilder.Allow` is Sparta library code
outside this repository; it starts a statement with effect Allow over the given
actions. -/
def Allow (apiCalls : List String) : IAMBuilder :=
  { apiCalls := apiCalls, effect := "Allow", condition := [] }

/-- Modelled from the spec: `IAMBuilder.WithCondition` (Sparta library) binds
the condition to the statement under construction. -/
def IAMBuilder.WithCondition (b : IAMBuilder) (conditionExpression : List ConditionClause) :
    IAMBuilder :=
  { b with condition := conditionExpression }

/-- The builder of a principal-only statement. -/
structure IAMPrincipalBuilder where
  builder : IAMBuilder
  principals : List String
  deriving Repr

/-- Modelled from the spec: `IAMBuilder.ForPrincipals` (Sparta library) binds
the service principals that may assume the role. -/
def IAMBuilder.ForPrincipals (b : IAMBuilder) (principals : List String) : IAMPrincipalBuilder :=
  { builder := b, principals := principals }

/-- Modelled from the spec: `IAMPrincipalBuilder.ToPolicyStatement` (Sparta
library) finishes an assume statement: effect, actions, principal and
conditions, and no resource. -/
def IAMPrincipalBuilder.ToPolicyStatement (pb : IAMPrincipalBuilder) : PolicyStatement :=
  { Effect := pb.builder.effect
    Action := pb.builder.apiCalls
    Resource := []
    Principal := some { Service := pb.principals }
    Condition := pb.builder.condition }

/-- The builder of a capability statement: the parts of its resource pattern. -/
structure IAMResourceBuilder where
  builder : IAMBuilder
  resourceParts : List StringExpr
  deriving Repr

/-- Modelled from the spec: `IAMBuilder.ForResource` (Sparta library) starts the
resource pattern of a capability statement. -/
def IAMBuilder.ForResource (b : IAMBuilder) : IAMResourceBuilder :=
  { builder := b, resourceParts := [] }

/-- Modelled from the spec: `IAMResourceBuilder.Attr` (Sparta library) appends
a reference to the named attribute of a resource to the pattern. -/
def IAMResourceBuilder.Attr (rb : IAMResourceBuilder) (resName propName : String) :
    IAMResourceBuilder :=
  { rb with resourceParts := rb.resourceParts ++ [.GetAtt resName propName] }

/-- Modelled from the spec: `IAMResourceBuilder.ToPolicyStatement` (Sparta
library) finishes a capability statement: effect, actions and the one resource
pattern made of the collected parts. -/
def IAMResourceBuilder.ToPolicyStatement (rb : IAMResourceBuilder) : PolicyStatement :=
  { Effect := rb.builder.effect
    Action := rb.builder.apiCalls
    Resource := [.Join "" rb.resourceParts]
    Principal := none
    Condition := rb.builder.condition }

/-- The references of a statement: those of its resource patterns, then those
of its condition values. -/
def PolicyStatement.refs (s : PolicyStatement) : List String :=
  StringExpr.refsAll s.Resource ++ StringExpr.refsAll (s.Condition.map fun c => c.value)

/-! ## Resource records (go-cloudformation) -/

/-- The versioning block of `gocf.S3Bucket`. -/
structure S3BucketVersioningConfiguration where
  Status : StringExpr
  deriving Repr

/-- The bucket record `gocf.S3Bucket`. -/
structure S3Bucket where
  VersioningConfiguration : Option S3BucketVersioningConfiguration
  deriving Repr

/-- A policy document: the JSON object with keys `Version` and `Statement`. -/
structure PolicyDocument where
  Version : String
  Statement : List PolicyStatement
  deriving Repr

/-- The inline policy record `gocf.IAMRolePolicy`. -/
structure IAMRolePolicy where
  PolicyName : StringExpr
  PolicyDocument : PolicyDocument
  deriving Repr

/-- The role record `gocf.IAMRole`. -/
structure IAMRole where
  AssumeRolePolicyDocument : PolicyDocument
  Policies : List IAMRolePolicy
  deriving Repr

/-- The record `gocf.KinesisFirehoseDeliveryStreamBufferingHints`; both fields
are integer literals (`gocf.Integer`). -/
structure KinesisFirehoseDeliveryStreamBufferingHints where
  IntervalInSeconds : Int
  SizeInMBs : Int
  deriving Repr

/-- The record `gocf.KinesisFirehoseDeliveryStreamProcessorParameter`. -/
structure KinesisFirehoseDeliveryStreamProcessorParameter where
  ParameterName : StringExpr
  ParameterValue : StringExpr
  deriving Repr

/-- The record `gocf.KinesisFirehoseDeliveryStreamProcessor`. -/
structure KinesisFirehoseDeliveryStreamProcessor where
  «Type» : StringExpr
  Parameters : List KinesisFirehoseDeliveryStreamProcessorParameter
  deriving Repr

/-- The record `gocf.KinesisFirehoseDeliveryStreamProcessingConfiguration`. -/
structure KinesisFirehoseDeliveryStreamProcessingConfiguration where
  Enabled : Bool
  Processors : List KinesisFirehoseDeliveryStreamProcessor
  deriving Repr

/-- The record
`gocf.KinesisFirehoseDeliveryStreamExtendedS3DestinationConfiguration`. -/
structure KinesisFirehoseDeliveryStreamExtendedS3DestinationConfiguration where
  BucketARN : StringExpr
  BufferingHints : Option KinesisFirehoseDeliveryStreamBufferingHints
  CompressionFormat : StringExpr
  Prefix : StringExpr
  RoleARN : StringExpr
  ProcessingConfiguration : Option KinesisFirehoseDeliveryStreamProcessingConfiguration
  deriving Repr

/-- The stream record `gocf.KinesisFirehoseDeliveryStream`. -/
structure KinesisFirehoseDeliveryStream where
  ExtendedS3DestinationConfiguration :
    Option KinesisFirehoseDeliveryStreamExtendedS3DestinationConfiguration
  deriving Repr

/-- The properties of a resource (`gocf.ResourceProperties`): one of the three
kinds the decorator builds, or any other resource the template already holds,
given by its CloudFormation type and its property values. -/
inductive ResourceProperties where
  | S3Bucket (bucket : S3Bucket)
  | IAMRole (role : IAMRole)
  | KinesisFirehoseDeliveryStream (stream : KinesisFirehoseDeliveryStream)
  | Other (cfType : String) (properties : List (String × StringExpr))
  deriving Repr

/-- A template entry (`gocf.Resource`). -/
structure Resource where
  DeletionPolicy : String
  DependsOn : List String
  Properties : ResourceProperties
  deriving Repr

/-- A template (`gocf.Template`) as `gocf.NewTemplate` makes it, with its
`Resources` map allocated; the map is kept as an association list read by
first match. -/
structure Template where
  Description : String
  Resources : List (String × Resource)
  deriving Repr

/-- The value a resource map holds under a name (first match). -/
def lookup : List (String × Resource) → String → Option Resource
  | [], _ => none
  | (k, v) :: rest, name => if k = name then some v else lookup rest name

/-- The resource map without its entries under a name. -/
def remove : List (String × Resource) → String → List (String × Resource)
  | [], _ => []
  | (k, v) :: rest, name => if k = name then remove rest name else (k, v) :: remove rest name

/-- The resource map with `f` applied to its entries under a name. -/
def modify : List (String × Resource) → String → (Resource → Resource) →
    List (String × Resource)
  | [], _, _ => []
  | (k, v) :: rest, name, f =>
    if k = name then (k, f v) :: modify rest name f else (k, v) :: modify rest name f

/-- The entry `t.Resources[name]`, if any. -/
def Template.get? (t : Template) (name : String) : Option Resource :=
  lookup t.Resources name

/-- The logical names of the template's resources. -/
def Template.names (t : Template) : List String :=
  t.Resources.map fun e => e.1

/-- Modelled from the spec: `gocf.Template.AddResource` is go-cloudformation
code outside this repository.  It stores a fresh entry with the given
properties under the name (`t.Resources[name] = entry`, whatever the map held
there before) and hands the entry back; it has no error result. -/
def Template.AddResource (t : Template) (name : String) (resource : ResourceProperties) :
    Template :=
  { t with
    Resources :=
      (name, { DeletionPolicy := "", DependsOn := [], Properties := resource }) ::
        remove t.Resources name }

/-- A write through the entry pointer that `AddResource name` handed back: the
entry stored under the name is updated in place. -/
def Template.update (t : Template) (name : String) (f : Resource → Resource) : Template :=
  { t with Resources := modify t.Resources name f }

/-! ## The decorator -/

/-- The two Sparta name functions the decorator calls and whose bodies lie
outside this repository: `spartaCF.StableResourceName`, from a seed to a
logical name, and the hook's method `LogicalResourceName`. -/
structure SpartaNames (Hook : Type) where
  StableResourceName : String → String
  LogicalResourceName : Hook → String

/-- The local `deliveryStreamResource` (main.go line 33). -/
def deliveryStreamResource {Hook : Type} (lib : SpartaNames Hook) : String :=
  lib.StableResourceName "FirehoseStream"

/-- The local `iamRoleResource` (main.go line 34). -/
def iamRoleResource {Hook : Type} (lib : SpartaNames Hook) : String :=
  lib.StableResourceName "FirehoseRole"

/-- The local `s3BucketResource` (main.go line 35). -/
def s3BucketResource {Hook : Type} (lib : SpartaNames Hook) : String :=
  lib.StableResourceName "FirehoseBucket"

/-- The local `s3Bucket` (main.go lines 38-42). -/
def s3Bucket : S3Bucket :=
  { VersioningConfiguration := some { Status := .Literal "Enabled" } }

/-- The local `assumeRoleStatement` (main.go lines 47-58). -/
def assumeRoleStatement : PolicyStatement :=
  (((Allow ["sts:AssumeRole"]).WithCondition
        [{ operator := "StringEquals", key := "sts:ExternalId", value := .Ref "AWS::AccountId" }]
      ).ForPrincipals [KinesisFirehosePrincipal]).ToPolicyStatement

/-- The first statement of the delivery policy, a JSON object literal
(main.go lines 73-86). -/
def bucketStatement {Hook : Type} (lib : SpartaNames Hook) : PolicyStatement :=
  { Effect := "Allow"
    Action := ["s3:AbortMultipartUpload", "s3:GetBucketLocation", "s3:GetObject",
      "s3:ListBucket", "s3:ListBucketMultipartUploads", "s3:PutObject"]
    Resource := [S3ArnForBucket (.ref (s3BucketResource lib)),
      S3AllKeysArnForBucket (.ref (s3BucketResource lib))]
    Principal := none
    Condition := [] }

/-- The second statement of the delivery policy (main.go lines 87-90). -/
def invokeStatement {Hook : Type} (lib : SpartaNames Hook) (xformer : Hook) : PolicyStatement :=
  (((Allow ["lambda:InvokeFunction", "lambda:GetFunctionConfiguration"]).ForResource).Attr
      (lib.LogicalResourceName xformer) "Arn").ToPolicyStatement

/-- The local `iamRole` (main.go lines 60-95). -/
def iamRole {Hook : Type} (lib : SpartaNames Hook) (xformer : Hook) : IAMRole :=
  { AssumeRolePolicyDocument :=
      { Version := "2012-10-17", Statement := [assumeRoleStatement] }
    Policies :=
      [{ PolicyName := .Literal "FirehoseDeliveryPolicy"
         PolicyDocument :=
           { Version := "2012-10-17"
             Statement := [bucketStatement lib, invokeStatement lib xformer] } }] }

/-- The local `deliveryStream` (main.go lines 99-124). -/
def deliveryStream {Hook : Type} (lib : SpartaNames Hook) (xformer : Hook) :
    KinesisFirehoseDeliveryStream :=
  { ExtendedS3DestinationConfiguration := some
      { BucketARN := S3ArnForBucket (.ref (s3BucketResource lib))
        BufferingHints := some { IntervalInSeconds := 60, SizeInMBs := 50 }
        CompressionFormat := .Literal "UNCOMPRESSED"
        Prefix := .Literal "firehose/"
        RoleARN := .GetAtt (iamRoleResource lib) "Arn"
        ProcessingConfiguration := some
          { Enabled := true
            Processors :=
              [{ «Type» := .Literal "Lambda"
                 Parameters :=
                   [{ ParameterName := .Literal "LambdaArn"
                      ParameterValue := .GetAtt (lib.LogicalResourceName xformer) "Arn" }] }] } } }

/-- What a run of the decorator leaves behind: the returned `error` (`none` is
Go's nil) and the template it wrote into. -/
structure Outcome where
  err : Option String
  template : Template
  deriving Repr

/-- The decorator that `newFirehoseDecorator xformer` returns
(main.go lines 22-128), with every argument of the Go closure. -/
def newFirehoseDecorator {Hook Context Session Logger : Type} (lib : SpartaNames Hook)
    (xformer : Hook) (context : Context) (serviceName : String) (template : Template)
    (S3Bucket : String) (S3Key : String) (buildID : String) (awsSession : Session)
    (noop : Bool) (logger : Logger) : Outcome :=
  -- s3Entry := template.AddResource(s3BucketResource, s3Bucket)
  let t1 := template.AddResource (s3BucketResource lib) (.S3Bucket s3Bucket)
  -- s3Entry.DeletionPolicy = "Retain"
  let t2 := t1.update (s3BucketResource lib) fun r => { r with DeletionPolicy := "Retain" }
  -- template.AddResource(iamRoleResource, iamRole)
  let t3 := t2.AddResource (iamRoleResource lib) (.IAMRole (iamRole lib xformer))
  -- deliveryStreamEntry := template.AddResource(deliveryStreamResource, deliveryStream)
  let t4 := t3.AddResource (deliveryStreamResource lib)
    (.KinesisFirehoseDeliveryStream (deliveryStream lib xformer))
  -- deliveryStreamEntry.DependsOn = []string{iamRoleResource}
  let t5 := t4.update (deliveryStreamResource lib) fun r =>
    { r with DependsOn := [iamRoleResource lib] }
  -- return nil
  { err := none, template := t5 }

/-! ## Reading a template -/

/-- The role stored under a name, if the entry there is a role. -/
def Template.roleAt (t : Template) (name : String) : Option IAMRole :=
  match t.get? name with
  | some { Properties := .IAMRole role, .. } => some role
  | _ => none

/-- The bucket stored under a name, if the entry there is a bucket. -/
def Template.bucketAt (t : Template) (name : String) : Option S3Bucket :=
  match t.get? name with
  | some { Properties := .S3Bucket bucket, .. } => some bucket
  | _ => none

/-- The delivery stream stored under a name, if the entry there is one. -/
def Template.streamAt (t : Template) (name : String) : Option KinesisFirehoseDeliveryStream :=
  match t.get? name with
  | some { Properties := .KinesisFirehoseDeliveryStream stream, .. } => some stream
  | _ => none

/-- The statements of a role: those of its assume-role document, then those of
its inline policies. -/
def IAMRole.statements (role : IAMRole) : List PolicyStatement :=
  role.AssumeRolePolicyDocument.Statement ++
    (role.Policies.map fun p => p.PolicyDocument.Statement).flatten

/-- The processor parameters of a delivery stream, each as its name and its
value. -/
def KinesisFirehoseDeliveryStream.parameterValues (s : KinesisFirehoseDeliveryStream) :
    List (StringExpr × StringExpr) :=
  match s.ExtendedS3DestinationConfiguration with
  | none => []
  | some c =>
    match c.ProcessingConfiguration with
    | none => []
    | some pc =>
      (pc.Processors.map fun p =>
        p.Parameters.map fun q => (q.ParameterName, q.ParameterValue)).flatten

/-- The capability statements of the role stored under a name: the statements
of its inline policies, in order (`[]` when no role is stored there). -/
def Template.capabilityStatements (t : Template) (name : String) : List PolicyStatement :=
  match t.roleAt name with
  | none => []
  | some role => (role.Policies.map fun p => p.PolicyDocument.Statement).flatten

/-- The assume-role statements of the role stored under a name. -/
def Template.assumeStatements (t : Template) (name : String) : List PolicyStatement :=
  match t.roleAt name with
  | none => []
  | some role => role.AssumeRolePolicyDocument.Statement

/-- The PolicyStatement invariant of the data model: the effect is Allow or
Deny, the action list is not empty, and the resource list is not empty unless
the statement is principal-only. -/
def PolicyStatement.Invariant (s : PolicyStatement) : Prop :=
  (s.Effect = "Allow" ∨ s.Effect = "Deny") ∧ s.Action ≠ [] ∧
    (s.Resource ≠ [] ∨ s.Principal.isSome = true)

/-- The three logical names the decorator allocates are pairwise distinct. -/
def DistinctNames {Hook : Type} (lib : SpartaNames Hook) : Prop :=
  s3BucketResource lib ≠ iamRoleResource lib ∧
    s3BucketResource lib ≠ deliveryStreamResource lib ∧
    iamRoleResource lib ≠ deliveryStreamResource lib

/-- Modelled from the spec: `spartaCF.StableResourceName` is Sparta library code
outside this repository.  The Identifier Allocator derives a logical name
deterministically from a seed and yields pairwise-distinct names for distinct
seeds: as a function of the seed it is injective. -/
def CollisionFree {Hook : Type} (lib : SpartaNames Hook) : Prop :=
  Function.Injective lib.StableResourceName

/-! ## The dependency graph of a template -/

/-- The references of a bucket record. -/
def S3Bucket.refs (b : S3Bucket) : List String :=
  match b.VersioningConfiguration with
  | none => []
  | some v => v.Status.refs

/-- The references of a role record: those of its statements and of its policy
names. -/
def IAMRole.refs (role : IAMRole) : List String :=
  (role.AssumeRolePolicyDocument.Statement.map PolicyStatement.refs).flatten ++
    (role.Policies.map fun p =>
      p.PolicyName.refs ++ (p.PolicyDocument.Statement.map PolicyStatement.refs).flatten).flatten

/-- The references of a delivery stream record, field by field. -/
def KinesisFirehoseDeliveryStream.refs (s : KinesisFirehoseDeliveryStream) : List String :=
  match s.ExtendedS3DestinationConfiguration with
  | none => []
  | some c =>
    c.BucketARN.refs ++ c.CompressionFormat.refs ++ c.Prefix.refs ++ c.RoleARN.refs ++
      (match c.ProcessingConfiguration with
       | none => []
       | some pc =>
         (pc.Processors.map fun p =>
           p.«Type».refs ++
             (p.Parameters.map fun q => q.ParameterName.refs ++ q.ParameterValue.refs).flatten
         ).flatten)

/-- The references embedded in a resource. -/
def ResourceProperties.refs : ResourceProperties → List String
  | .S3Bucket bucket => bucket.refs
  | .IAMRole role => role.refs
  | .KinesisFirehoseDeliveryStream stream => stream.refs
  | .Other _ properties => StringExpr.refsAll (properties.map fun q => q.2)

/-- The edges (from, to) that references alone induce over a set of nodes: one
for every reference of a node's resource that points at a node. -/
def referenceEdges (t : Template) (nodes : List String) : List (String × String) :=
  (nodes.map fun n =>
    match t.get? n with
    | none => []
    | some r => (r.Properties.refs.filter fun target => target ∈ nodes).map fun target =>
        (n, target)).flatten

/-- The explicit edges (from, to) recorded in the `DependsOn` lists of the
nodes. -/
def dependsOnEdges (t : Template) (nodes : List String) : List (String × String) :=
  (nodes.map fun n =>
    match t.get? n with
    | none => []
    | some r => r.DependsOn.map fun target => (n, target)).flatten

/-- An emission order of the nodes in which every edge (from, to) has `to`
before `from`. -/
def IsTopologicalOrder (nodes : List String) (edges : List (String × String))
    (order : List String) : Prop :=
  order.Perm nodes ∧ ∀ e ∈ edges, order.indexOf e.2 < order.indexOf e.1

/-- No node reaches itself along one or more edges. -/
def Acyclic (edges : List (String × String)) : Prop :=
  ∀ n, ¬ Relation.TransGen (fun a b => (a, b) ∈ edges) n n

/-- The names the decorator allocates are pairwise distinct and none of them
is a name that the new resources refer to from outside: the hook's logical name
or the account pseudo parameter. -/
def FreshNames {Hook : Type} (lib : SpartaNames Hook) (xformer : Hook) : Prop :=
  DistinctNames lib ∧
    (∀ n ∈ [s3BucketResource lib, iamRoleResource lib, deliveryStreamResource lib],
      lib.LogicalResourceName xformer ≠ n ∧ "AWS::AccountId" ≠ n)

/-- A sample instance of the name functions: hooks are given by their logical
name, and a seed is its own stable name. -/
def sampleNames : SpartaNames String :=
  { StableResourceName := fun seed => seed, LogicalResourceName := fun hook => hook }

/-- A second sample instance: a hook is a logical name with a build number,
and hooks that differ in the build number alone share the logical name. -/
def versionedNames : SpartaNames (String × Nat) :=
  { StableResourceName := fun seed => seed, LogicalResourceName := fun hook => hook.1 }

/-- A sample template: it holds the Lambda function of the hook "Xformer". -/
def sampleTemplate : Template :=
  { Description := "TransformerStack"
    Resources :=
      [("Xformer",
        { DeletionPolicy := "", DependsOn := [],
          Properties := .Other "AWS::Lambda::Function" [("Handler", .Literal "main")] })] }

/-- A sample template in which the hook's own Lambda function sits under the
name "FirehoseRole". -/
def collidingTemplate : Template :=
  { Description := "TransformerStack"
    Resources :=
      [("FirehoseRole",
        { DeletionPolicy := "", DependsOn := [],
          Properties := .Other "AWS::Lambda::Function" [("Handler", .Literal "main")] })] }

/-- The sample template after one run of the decorator for the hook
"Xformer". -/
def sampleDecorated : Template :=
  (newFirehoseDecorator sampleNames "Xformer" () "TransformerStack" sampleTemplate
    "bucket" "key" "build" () false ()).template

/-! ## The template map: reads after writes -/

theorem lookup_remove_ne (l : List (String × Resource)) (n m : String) (h : m ≠ n) :
    lookup (remove l n) m = lookup l m := by
  induction l with
  | nil => rfl
  | cons a l ih =>
    obtain ⟨k, v⟩ := a
    by_cases hk : k = n
    · have hm : ¬ k = m := fun h2 => h (h2.symm.trans hk)
      simp only [remove, lookup, hk, if_true, ih]
      rw [if_neg (fun h3 => h h3.symm)]
    · by_cases hm : k = m
      · subst hm
        simp only [remove, hk, if_false, lookup, if_true]
      · simp only [remove, hk, if_false, lookup, hm, ih]

theorem lookup_modify (l : List (String × Resource)) (n m : String) (f : Resource → Resource) :
    lookup (modify l n f) m = if m = n then (lookup l m).map f else lookup l m := by
  induction l with
  | nil => simp [modify, lookup]
  | cons a l ih =>
    obtain ⟨k, v⟩ := a
    by_cases hkn : k = n
    · by_cases hkm : k = m
      · have hmn : m = n := hkm.symm.trans hkn
        simp [modify, lookup, hkn, hmn]
      · simp only [modify, lookup, hkn, hkm, if_true, if_false, ih]
        simp only [hkn] at hkm
        simp [hkm]
    · by_cases hkm : k = m
      · have hmn : ¬ m = n := fun h2 => hkn (hkm.trans h2)
        simp [modify, lookup, hkn, hkm, hmn]
      · simp only [modify, lookup, hkn, hkm, if_false, ih]

theorem get?_AddResource_self (t : Template) (n : String) (p : ResourceProperties) :
    (t.AddResource n p).get? n =
      some { DeletionPolicy := "", DependsOn := [], Properties := p } := by
  simp [Template.get?, Template.AddResource, lookup]

theorem get?_AddResource_ne (t : Template) (n m : String) (p : ResourceProperties)
    (h : m ≠ n) : (t.AddResource n p).get? m = t.get? m := by
  have hnm : ¬ n = m := fun h2 => h h2.symm
  simp [Template.get?, Template.AddResource, lookup, hnm, lookup_remove_ne _ _ _ h]

theorem get?_update (t : Template) (n m : String) (f : Resource → Resource) :
    (t.update n f).get? m = if m = n then (t.get? m).map f else t.get? m := by
  simp [Template.get?, Template.update, lookup_modify]

theorem get?_update_self (t : Template) (n : String) (f : Resource → Resource) :
    (t.update n f).get? n = (t.get? n).map f := by
  simp [get?_update]

theorem get?_update_ne (t : Template) (n m : String) (f : Resource → Resource) (h : m ≠ n) :
    (t.update n f).get? m = t.get? m := by
  simp [get?_update, h]

/-! ## The entries the decorator leaves in the template -/

section Entries

variable {Hook Context Session Logger : Type} (lib : SpartaNames Hook) (xformer : Hook)
  (context : Context) (serviceName : String) (template : Template)
  (S3Bucket S3Key buildID : String) (awsSession : Session) (noop : Bool) (logger : Logger)

theorem decorator_stream_entry :
    (newFirehoseDecorator lib xformer context serviceName template S3Bucket S3Key buildID
        awsSession noop logger).template.get? (deliveryStreamResource lib) =
      some { DeletionPolicy := "", DependsOn := [iamRoleResource lib],
             Properties := .KinesisFirehoseDeliveryStream (deliveryStream lib xformer) } := by
  simp [newFirehoseDecorator, get?_update_self, get?_AddResource_self]

theorem decorator_role_entry (h : iamRoleResource lib ≠ deliveryStreamResource lib) :
    (newFirehoseDecorator lib xformer context serviceName template S3Bucket S3Key buildID
        awsSession noop logger).template.get? (iamRoleResource lib) =
      some { DeletionPolicy := "", DependsOn := [],
             Properties := .IAMRole (iamRole lib xformer) } := by
  simp [newFirehoseDecorator, get?_update_ne _ _ _ _ h, get?_AddResource_ne _ _ _ _ h,
    get?_AddResource_self]

theorem decorator_bucket_entry (hr : s3BucketResource lib ≠ iamRoleResource lib)
    (hs : s3BucketResource lib ≠ deliveryStreamResource lib) :
    (newFirehoseDecorator lib xformer context serviceName template S3Bucket S3Key buildID
        awsSession noop logger).template.get? (s3BucketResource lib) =
      some { DeletionPolicy := "Retain", DependsOn := [],
             Properties := .S3Bucket s3Bucket } := by
  simp [newFirehoseDecorator, get?_update_ne _ _ _ _ hs, get?_AddResource_ne _ _ _ _ hs,
    get?_AddResource_ne _ _ _ _ hr, get?_update_self, get?_AddResource_self]

theorem decorator_other_entry (name : String) (hb : name ≠ s3BucketResource lib)
    (hr : name ≠ iamRoleResource lib) (hs : name ≠ deliveryStreamResource lib) :
    (newFirehoseDecorator lib xformer context serviceName template S3Bucket S3Key buildID
        awsSession noop logger).template.get? name = template.get? name := by
  simp [newFirehoseDecorator, get?_update_ne _ _ _ _ hs, get?_AddResource_ne _ _ _ _ hs,
    get?_AddResource_ne _ _ _ _ hr, get?_update_ne _ _ _ _ hb, get?_AddResource_ne _ _ _ _ hb]

theorem decorator_streamAt :
    (newFirehoseDecorator lib xformer context serviceName template S3Bucket S3Key buildID
        awsSession noop logger).template.streamAt (deliveryStreamResource lib) =
      some (deliveryStream lib xformer) := by
  simp [Template.streamAt, decorator_stream_entry]

theorem decorator_roleAt (h : iamRoleResource lib ≠ deliveryStreamResource lib) :
    (newFirehoseDecorator lib xformer context serviceName template S3Bucket S3Key buildID
        awsSession noop logger).template.roleAt (iamRoleResource lib) =
      some (iamRole lib xformer) := by
  simp [Template.roleAt, decorator_role_entry, h]

theorem decorator_bucketAt (hr : s3BucketResource lib ≠ iamRoleResource lib)
    (hs : s3BucketResource lib ≠ deliveryStreamResource lib) :
    (newFirehoseDecorator lib xformer context serviceName template S3Bucket S3Key buildID
        awsSession noop logger).template.bucketAt (s3BucketResource lib) = some s3Bucket := by
  simp [Template.bucketAt, decorator_bucket_entry, hr, hs]

theorem decorator_capabilityStatements (h : iamRoleResource lib ≠ deliveryStreamResource lib) :
    (newFirehoseDecorator lib xformer context serviceName template S3Bucket S3Key buildID
        awsSession noop logger).template.capabilityStatements (iamRoleResource lib) =
      [bucketStatement lib, invokeStatement lib xformer] := by
  simp [Template.capabilityStatements, decorator_roleAt, h, iamRole]

theorem decorator_assumeStatements (h : iamRoleResource lib ≠ deliveryStreamResource lib) :
    (newFirehoseDecorator lib xformer context serviceName template S3Bucket S3Key buildID
        awsSession noop logger).template.assumeStatements (iamRoleResource lib) =
      [assumeRoleStatement] := by
  simp [Template.assumeStatements, decorator_roleAt, h, iamRole]

end Entries

/-! ## References of the three resources and orders of three nodes -/

theorem s3Bucket_refs : s3Bucket.refs = [] := by
  simp [s3Bucket, S3Bucket.refs, StringExpr.refs]

theorem iamRole_refs {Hook : Type} (lib : SpartaNames Hook) (xformer : Hook) :
    (iamRole lib xformer).refs =
      ["AWS::AccountId", s3BucketResource lib, s3BucketResource lib,
        lib.LogicalResourceName xformer] := by
  simp [iamRole, IAMRole.refs, PolicyStatement.refs, assumeRoleStatement, bucketStatement,
    invokeStatement, IAMPrincipalBuilder.ToPolicyStatement, IAMBuilder.ForPrincipals,
    IAMBuilder.WithCondition, Allow, IAMResourceBuilder.ToPolicyStatement,
    IAMResourceBuilder.Attr, IAMBuilder.ForResource, S3ArnForBucket, S3AllKeysArnForBucket,
    BucketValue.toExpr, StringExpr.refs, StringExpr.refsAll]

theorem deliveryStream_refs {Hook : Type} (lib : SpartaNames Hook) (xformer : Hook) :
    (deliveryStream lib xformer).refs =
      [s3BucketResource lib, iamRoleResource lib, lib.LogicalResourceName xformer] := by
  simp [deliveryStream, KinesisFirehoseDeliveryStream.refs, S3ArnForBucket, BucketValue.toExpr,
    StringExpr.refs, StringExpr.refsAll]

theorem transGen_rank_lt (edges : List (String × String)) (rank : String → Nat)
    (hrank : ∀ e ∈ edges, rank e.2 < rank e.1) (a b : String)
    (hab : Relation.TransGen (fun x y => (x, y) ∈ edges) a b) : rank b < rank a := by
  induction hab with
  | single h => exact hrank _ h
  | tail _ h ih => exact lt_trans (hrank _ h) ih

theorem acyclic_of_rank (edges : List (String × String)) (rank : String → Nat)
    (hrank : ∀ e ∈ edges, rank e.2 < rank e.1) : Acyclic edges := by
  intro n hn
  exact lt_irrefl _ (transGen_rank_lt edges rank hrank n n hn)

theorem order_of_three (b r s : String) (hbr : b ≠ r) (hbs : b ≠ s) (hrs : r ≠ s)
    (order : List String) (hperm : order.Perm [b, r, s])
    (h1 : order.indexOf b < order.indexOf r) (h2 : order.indexOf r < order.indexOf s) :
    order = [b, r, s] := by
  have hlen : order.length = 3 := by simpa using hperm.length_eq
  have hnodup : order.Nodup := hperm.nodup_iff.mpr (by simp [hbr, hbs, hrs])
  match order, hlen with
  | [x, y, z], _ =>
    have hx : x = b ∨ x = r ∨ x = s := by simpa using hperm.subset (List.mem_cons_self _ _)
    have hy : y = b ∨ y = r ∨ y = s := by
      simpa using hperm.subset (List.mem_cons_of_mem _ (List.mem_cons_self _ _))
    have hz : z = b ∨ z = r ∨ z = s := by
      simpa using hperm.subset
        (List.mem_cons_of_mem _ (List.mem_cons_of_mem _ (List.mem_cons_self _ _)))
    have hbr2 : r ≠ b := hbr.symm
    have hbs2 : s ≠ b := hbs.symm
    have hrs2 : s ≠ r := hrs.symm
    simp only [List.nodup_cons, List.mem_cons, List.mem_singleton, List.not_mem_nil,
      not_or, List.nodup_nil, or_false, not_false_eq_true, and_true] at hnodup
    rcases hx with hx | hx | hx <;> rcases hy with hy | hy | hy <;>
      rcases hz with hz | hz | hz <;>
      simp [hx, hy, hz, List.indexOf_cons, hbr, hbs, hrs, hbr2, hbs2, hrs2] at h1 h2 hnodup ⊢

/-! ## The claims -/

section Claims

variable {Hook Context Session Logger : Type} (lib : SpartaNames Hook) (xformer : Hook)
  (context : Context) (serviceName : String) (template : Template)
  (S3Bucket S3Key buildID : String) (awsSession : Session) (noop : Bool) (logger : Logger)

/-- C1: for every template and every hook, the first capability statement of
the role the decorator adds has a Resource list of exactly two patterns, in
this order: `S3ArnForBucket (Ref s3BucketResource)` and
`S3AllKeysArnForBucket (Ref s3BucketResource)`, the second being the parts of
the first followed by "/*".  Both point at the FirehoseBucket logical name and
at nothing else, their only literal text is the ARN head and "/*" (no bucket
name is spelled out), and the template holds the bucket the decorator added
under that name.  The names the decorator allocates are taken to be distinct. -/
theorem bucket_statement_two_patterns (h : DistinctNames lib) :
    ∃ stmt parts,
      ((newFirehoseDecorator lib xformer context serviceName template S3Bucket S3Key buildID
          awsSession noop logger).template.capabilityStatements (iamRoleResource lib))[0]? =
        some stmt ∧
      stmt.Resource = [S3ArnForBucket (.ref (s3BucketResource lib)),
        S3AllKeysArnForBucket (.ref (s3BucketResource lib))] ∧
      stmt.Resource.length = 2 ∧
      S3ArnForBucket (.ref (s3BucketResource lib)) = .Join "" parts ∧
      S3AllKeysArnForBucket (.ref (s3BucketResource lib)) = .Join "" (parts ++ [.Literal "/*"]) ∧
      stmt.Resource.map StringExpr.refs = [[s3BucketResource lib], [s3BucketResource lib]] ∧
      stmt.Resource.map StringExpr.literals = [["arn:aws:s3:::"], ["arn:aws:s3:::", "/*"]] ∧
      (newFirehoseDecorator lib xformer context serviceName template S3Bucket S3Key buildID
          awsSession noop logger).template.bucketAt (s3BucketResource lib) = some s3Bucket := by
  obtain ⟨hbr, hbs, hrs⟩ := h
  refine ⟨bucketStatement lib, [.Literal "arn:aws:s3:::", .Ref (s3BucketResource lib)], ?_, ?_,
    ?_, ?_, ?_, ?_, ?_, ?_⟩
  · simp [decorator_capabilityStatements, hrs]
  · rfl
  · rfl
  · rfl
  · rfl
  · simp [bucketStatement, S3ArnForBucket, S3AllKeysArnForBucket, BucketValue.toExpr,
      StringExpr.refs, StringExpr.refsAll]
  · simp [bucketStatement, S3ArnForBucket, S3AllKeysArnForBucket, BucketValue.toExpr,
      StringExpr.literals, StringExpr.literalsAll]
  · exact decorator_bucketAt lib xformer context serviceName template S3Bucket S3Key buildID
      awsSession noop logger hbr hbs

/-- Witness of C1 on the sample template and the hook "Xformer". -/
theorem bucket_statement_two_patterns_witness :
    DistinctNames sampleNames ∧
    ∃ stmt parts,
      (sampleDecorated.capabilityStatements "FirehoseRole")[0]? = some stmt ∧
      stmt.Resource = [S3ArnForBucket (.ref "FirehoseBucket"),
        S3AllKeysArnForBucket (.ref "FirehoseBucket")] ∧
      stmt.Resource.length = 2 ∧
      S3ArnForBucket (.ref "FirehoseBucket") = .Join "" parts ∧
      S3AllKeysArnForBucket (.ref "FirehoseBucket") = .Join "" (parts ++ [.Literal "/*"]) ∧
      stmt.Resource.map StringExpr.refs = [["FirehoseBucket"], ["FirehoseBucket"]] ∧
      stmt.Resource.map StringExpr.literals = [["arn:aws:s3:::"], ["arn:aws:s3:::", "/*"]] ∧
      sampleDecorated.bucketAt "FirehoseBucket" = some s3Bucket :=
  have h : DistinctNames sampleNames := by
    simp [DistinctNames, s3BucketResource, iamRoleResource, deliveryStreamResource, sampleNames]
  ⟨h, bucket_statement_two_patterns sampleNames "Xformer" () "TransformerStack" sampleTemplate
    "bucket" "key" "build" () false () h⟩

/-- C2: for every hook, the second capability statement of the role grants
exactly lambda:InvokeFunction and lambda:GetFunctionConfiguration, and its one
resource pattern is made of the attribute reference
`GetAtt (LogicalResourceName xformer) "Arn"` alone, with no literal text.  The
stream's LambdaArn processor parameter is that same reference, and for a second
hook with another logical name the statement's resource patterns differ.  The
role and stream names are taken to be distinct. -/
theorem invoke_statement_by_reference (xformer2 : Hook) (template2 : Template)
    (h : iamRoleResource lib ≠ deliveryStreamResource lib) :
    ∃ stmt stream,
      ((newFirehoseDecorator lib xformer context serviceName template S3Bucket S3Key buildID
          awsSession noop logger).template.capabilityStatements (iamRoleResource lib))[1]? =
        some stmt ∧
      stmt.Action = ["lambda:InvokeFunction", "lambda:GetFunctionConfiguration"] ∧
      stmt.Effect = "Allow" ∧
      stmt.Resource = [.Join "" [.GetAtt (lib.LogicalResourceName xformer) "Arn"]] ∧
      StringExpr.literalsAll stmt.Resource = [] ∧
      StringExpr.refsAll stmt.Resource = [lib.LogicalResourceName xformer] ∧
      (newFirehoseDecorator lib xformer context serviceName template S3Bucket S3Key buildID
          awsSession noop logger).template.streamAt (deliveryStreamResource lib) =
        some stream ∧
      stream.parameterValues =
        [(.Literal "LambdaArn", .GetAtt (lib.LogicalResourceName xformer) "Arn")] ∧
      (lib.LogicalResourceName xformer ≠ lib.LogicalResourceName xformer2 →
        ∃ stmt2,
          ((newFirehoseDecorator lib xformer2 context serviceName template2 S3Bucket S3Key
              buildID awsSession noop logger).template.capabilityStatements
              (iamRoleResource lib))[1]? = some stmt2 ∧
          stmt2.Resource ≠ stmt.Resource) := by
  refine ⟨invokeStatement lib xformer, deliveryStream lib xformer, ?_, rfl, rfl, rfl, ?_, ?_,
    ?_, ?_, ?_⟩
  · simp [decorator_capabilityStatements, h]
  · simp [invokeStatement, IAMResourceBuilder.ToPolicyStatement, IAMResourceBuilder.Attr,
      IAMBuilder.ForResource, StringExpr.literals, StringExpr.literalsAll]
  · simp [invokeStatement, IAMResourceBuilder.ToPolicyStatement, IAMResourceBuilder.Attr,
      IAMBuilder.ForResource, StringExpr.refs, StringExpr.refsAll]
  · exact decorator_streamAt lib xformer context serviceName template S3Bucket S3Key buildID
      awsSession noop logger
  · simp [deliveryStream, KinesisFirehoseDeliveryStream.parameterValues]
  · intro hne
    refine ⟨invokeStatement lib xformer2, ?_, ?_⟩
    · simp [decorator_capabilityStatements, h]
    · intro heq
      apply hne
      simp [invokeStatement, IAMResourceBuilder.ToPolicyStatement, IAMResourceBuilder.Attr,
        IAMBuilder.ForResource] at heq
      exact heq.symm

/-- Witness of C2 on the sample template: the hooks "Xformer" and "Renamed". -/
theorem invoke_statement_by_reference_witness :
    iamRoleResource sampleNames ≠ deliveryStreamResource sampleNames ∧
    ∃ stmt stream,
      (sampleDecorated.capabilityStatements "FirehoseRole")[1]? = some stmt ∧
      stmt.Action = ["lambda:InvokeFunction", "lambda:GetFunctionConfiguration"] ∧
      stmt.Effect = "Allow" ∧
      stmt.Resource = [.Join "" [.GetAtt "Xformer" "Arn"]] ∧
      StringExpr.literalsAll stmt.Resource = [] ∧
      StringExpr.refsAll stmt.Resource = ["Xformer"] ∧
      sampleDecorated.streamAt "FirehoseStream" = some stream ∧
      stream.parameterValues = [(.Literal "LambdaArn", .GetAtt "Xformer" "Arn")] ∧
      ("Xformer" ≠ "Renamed" →
        ∃ stmt2,
          ((newFirehoseDecorator sampleNames "Renamed" () "TransformerStack" sampleTemplate
              "bucket" "key" "build" () false ()).template.capabilityStatements
              "FirehoseRole")[1]? = some stmt2 ∧
          stmt2.Resource ≠ stmt.Resource) :=
  have h : iamRoleResource sampleNames ≠ deliveryStreamResource sampleNames := by
    simp [iamRoleResource, deliveryStreamResource, sampleNames]
  ⟨h, invoke_statement_by_reference sampleNames "Xformer" () "TransformerStack" sampleTemplate
    "bucket" "key" "build" () false () "Renamed" sampleTemplate h⟩

/-- C3: in the template the decorator produces, the edges that references
alone induce over the three added resources are role -> bucket (through the
two patterns of its policy), stream -> bucket (BucketARN) and stream -> role
(RoleARN).  They form an acyclic graph whose one and only topological order is
bucket, role, stream; and the one explicit DependsOn edge of the three
resources, stream -> role, is among the edges the references induce.  The
three names are taken to be distinct and different from the hook's name and
from the account pseudo parameter. -/
theorem reference_edges_order (h : FreshNames lib xformer) :
    referenceEdges
        (newFirehoseDecorator lib xformer context serviceName template S3Bucket S3Key buildID
          awsSession noop logger).template
        [s3BucketResource lib, iamRoleResource lib, deliveryStreamResource lib] =
      [(iamRoleResource lib, s3BucketResource lib), (iamRoleResource lib, s3BucketResource lib),
        (deliveryStreamResource lib, s3BucketResource lib),
        (deliveryStreamResource lib, iamRoleResource lib)] ∧
    Acyclic
      (referenceEdges
        (newFirehoseDecorator lib xformer context serviceName template S3Bucket S3Key buildID
          awsSession noop logger).template
        [s3BucketResource lib, iamRoleResource lib, deliveryStreamResource lib]) ∧
    (∀ order,
      IsTopologicalOrder [s3BucketResource lib, iamRoleResource lib, deliveryStreamResource lib]
        (referenceEdges
          (newFirehoseDecorator lib xformer context serviceName template S3Bucket S3Key buildID
            awsSession noop logger).template
          [s3BucketResource lib, iamRoleResource lib, deliveryStreamResource lib]) order ↔
        order = [s3BucketResource lib, iamRoleResource lib, deliveryStreamResource lib]) ∧
    dependsOnEdges
        (newFirehoseDecorator lib xformer context serviceName template S3Bucket S3Key buildID
          awsSession noop logger).template
        [s3BucketResource lib, iamRoleResource lib, deliveryStreamResource lib] =
      [(deliveryStreamResource lib, iamRoleResource lib)] ∧
    (∀ e ∈ dependsOnEdges
        (newFirehoseDecorator lib xformer context serviceName template S3Bucket S3Key buildID
          awsSession noop logger).template
        [s3BucketResource lib, iamRoleResource lib, deliveryStreamResource lib],
      e ∈ referenceEdges
        (newFirehoseDecorator lib xformer context serviceName template S3Bucket S3Key buildID
          awsSession noop logger).template
        [s3BucketResource lib, iamRoleResource lib, deliveryStreamResource lib]) := by
  obtain ⟨⟨hbr, hbs, hrs⟩, hout⟩ := h
  have hxb := (hout (s3BucketResource lib) (by simp)).1
  have hab := (hout (s3BucketResource lib) (by simp)).2
  have hxr := (hout (iamRoleResource lib) (by simp)).1
  have har := (hout (iamRoleResource lib) (by simp)).2
  have hxs := (hout (deliveryStreamResource lib) (by simp)).1
  have has := (hout (deliveryStreamResource lib) (by simp)).2
  have hE : referenceEdges
        (newFirehoseDecorator lib xformer context serviceName template S3Bucket S3Key buildID
          awsSession noop logger).template
        [s3BucketResource lib, iamRoleResource lib, deliveryStreamResource lib] =
      [(iamRoleResource lib, s3BucketResource lib), (iamRoleResource lib, s3BucketResource lib),
        (deliveryStreamResource lib, s3BucketResource lib),
        (deliveryStreamResource lib, iamRoleResource lib)] := by
    simp [referenceEdges, decorator_stream_entry, decorator_role_entry, decorator_bucket_entry,
      ResourceProperties.refs, s3Bucket_refs, iamRole_refs, deliveryStream_refs,
      List.filter_cons, hbr, hbs, hrs, hbr.symm, hbs.symm, hrs.symm, hxb, hab, hxr, har, hxs, has]
  have hD : dependsOnEdges
        (newFirehoseDecorator lib xformer context serviceName template S3Bucket S3Key buildID
          awsSession noop logger).template
        [s3BucketResource lib, iamRoleResource lib, deliveryStreamResource lib] =
      [(deliveryStreamResource lib, iamRoleResource lib)] := by
    simp [dependsOnEdges, decorator_stream_entry, decorator_role_entry, decorator_bucket_entry,
      hbr, hbs, hrs]
  have hidx : ∀ e ∈ [(iamRoleResource lib, s3BucketResource lib),
        (iamRoleResource lib, s3BucketResource lib),
        (deliveryStreamResource lib, s3BucketResource lib),
        (deliveryStreamResource lib, iamRoleResource lib)],
      [s3BucketResource lib, iamRoleResource lib, deliveryStreamResource lib].indexOf e.2 <
        [s3BucketResource lib, iamRoleResource lib, deliveryStreamResource lib].indexOf e.1 := by
    intro e he
    simp only [List.mem_cons, List.mem_singleton, List.not_mem_nil, or_false] at he
    rcases he with rfl | rfl | rfl | rfl <;>
      simp [List.indexOf_cons, hbr, hbs, hrs, hbr.symm, hbs.symm, hrs.symm]
  rw [hE, hD]
  refine ⟨rfl, ?_, ?_, rfl, ?_⟩
  · exact acyclic_of_rank _
      (fun n => [s3BucketResource lib, iamRoleResource lib,
        deliveryStreamResource lib].indexOf n) hidx
  · intro order
    constructor
    · rintro ⟨hperm, hedges⟩
      exact order_of_three _ _ _ hbr hbs hrs order hperm
        (hedges (iamRoleResource lib, s3BucketResource lib) (by simp))
        (hedges (deliveryStreamResource lib, iamRoleResource lib) (by simp))
    · rintro rfl
      exact ⟨List.Perm.refl _, hidx⟩
  · intro e he
    simp only [List.mem_singleton] at he
    simp [he]

/-- Witness of C3 on the sample template and the hook "Xformer". -/
theorem reference_edges_order_witness :
    FreshNames sampleNames "Xformer" ∧
    referenceEdges sampleDecorated ["FirehoseBucket", "FirehoseRole", "FirehoseStream"] =
      [("FirehoseRole", "FirehoseBucket"), ("FirehoseRole", "FirehoseBucket"),
        ("FirehoseStream", "FirehoseBucket"), ("FirehoseStream", "FirehoseRole")] ∧
    Acyclic (referenceEdges sampleDecorated ["FirehoseBucket", "FirehoseRole", "FirehoseStream"]) ∧
    (∀ order,
      IsTopologicalOrder ["FirehoseBucket", "FirehoseRole", "FirehoseStream"]
        (referenceEdges sampleDecorated ["FirehoseBucket", "FirehoseRole", "FirehoseStream"])
        order ↔
        order = ["FirehoseBucket", "FirehoseRole", "FirehoseStream"]) ∧
    dependsOnEdges sampleDecorated ["FirehoseBucket", "FirehoseRole", "FirehoseStream"] =
      [("FirehoseStream", "FirehoseRole")] ∧
    (∀ e ∈ dependsOnEdges sampleDecorated ["FirehoseBucket", "FirehoseRole", "FirehoseStream"],
      e ∈ referenceEdges sampleDecorated ["FirehoseBucket", "FirehoseRole", "FirehoseStream"]) :=
  have h : FreshNames sampleNames "Xformer" := by
    simp [FreshNames, DistinctNames, s3BucketResource, iamRoleResource, deliveryStreamResource,
      sampleNames]
  ⟨h, reference_edges_order sampleNames "Xformer" () "TransformerStack" sampleTemplate
    "bucket" "key" "build" () false () h⟩

/-- C4: the decorator's result does not depend on the dry-run flag nor on any
other argument it ignores: two runs on the same template, for hooks with the
same logical name, return the same error value and the same template whatever
the context, service name, S3 bucket, S3 key, build id, session, dry-run flag
and logger of each run. -/
theorem decorator_ignores_noop (xformer2 : Hook) (context2 : Context) (serviceName2 : String)
    (S3Bucket2 S3Key2 buildID2 : String) (awsSession2 : Session) (noop2 : Bool)
    (logger2 : Logger)
    (h : lib.LogicalResourceName xformer = lib.LogicalResourceName xformer2) :
    newFirehoseDecorator lib xformer context serviceName template S3Bucket S3Key buildID
        awsSession noop logger =
      newFirehoseDecorator lib xformer2 context2 serviceName2 template S3Bucket2 S3Key2 buildID2
        awsSession2 noop2 logger2 := by
  simp [newFirehoseDecorator, iamRole, invokeStatement, deliveryStream, h]

/-- Witness of C4: a dry run and a real run on the sample template, with
different ignored arguments and two hooks that share the logical name
"Xformer". -/
theorem decorator_ignores_noop_witness :
    newFirehoseDecorator versionedNames
        ("Xformer", 1) ["a"] "TransformerStack" sampleTemplate "bucket" "key" "build" 0 true () =
      newFirehoseDecorator versionedNames
        ("Xformer", 2) ["b", "c"] "OtherStack" sampleTemplate "bucket2" "key2" "build2" 7 false
        () :=
  decorator_ignores_noop versionedNames ("Xformer", 1) ["a"] "TransformerStack" sampleTemplate "bucket" "key"
    "build" 0 true () ("Xformer", 2) ["b", "c"] "OtherStack" "bucket2" "key2" "build2" 7 false ()
    rfl

/-- C5: when the allocator maps distinct seeds to distinct names, the three
logical names the decorator allocates are pairwise distinct, and applied to an
empty template the decorator yields a template with exactly three resources,
under three different names: one bucket, one role and one delivery stream. -/
theorem allocated_names_distinct (description : String) (h : CollisionFree lib) :
    DistinctNames lib ∧
    (newFirehoseDecorator lib xformer context serviceName
        { Description := description, Resources := [] } S3Bucket S3Key buildID awsSession noop
        logger).template.names =
      [deliveryStreamResource lib, iamRoleResource lib, s3BucketResource lib] ∧
    (newFirehoseDecorator lib xformer context serviceName
        { Description := description, Resources := [] } S3Bucket S3Key buildID awsSession noop
        logger).template.names.Nodup ∧
    (newFirehoseDecorator lib xformer context serviceName
        { Description := description, Resources := [] } S3Bucket S3Key buildID awsSession noop
        logger).template.Resources.length = 3 ∧
    (newFirehoseDecorator lib xformer context serviceName
        { Description := description, Resources := [] } S3Bucket S3Key buildID awsSession noop
        logger).template.bucketAt (s3BucketResource lib) = some s3Bucket ∧
    (newFirehoseDecorator lib xformer context serviceName
        { Description := description, Resources := [] } S3Bucket S3Key buildID awsSession noop
        logger).template.roleAt (iamRoleResource lib) = some (iamRole lib xformer) ∧
    (newFirehoseDecorator lib xformer context serviceName
        { Description := description, Resources := [] } S3Bucket S3Key buildID awsSession noop
        logger).template.streamAt (deliveryStreamResource lib) =
      some (deliveryStream lib xformer) := by
  have hbr : s3BucketResource lib ≠ iamRoleResource lib := fun e => by
    have := h e
    revert this
    decide
  have hbs : s3BucketResource lib ≠ deliveryStreamResource lib := fun e => by
    have := h e
    revert this
    decide
  have hrs : iamRoleResource lib ≠ deliveryStreamResource lib := fun e => by
    have := h e
    revert this
    decide
  have hnames : (newFirehoseDecorator lib xformer context serviceName
        { Description := description, Resources := [] } S3Bucket S3Key buildID awsSession noop
        logger).template.names =
      [deliveryStreamResource lib, iamRoleResource lib, s3BucketResource lib] := by
    simp [newFirehoseDecorator, Template.names, Template.AddResource, Template.update, remove,
      modify, hbr, hbs, hrs, hbr.symm, hbs.symm, hrs.symm]
  refine ⟨⟨hbr, hbs, hrs⟩, hnames, ?_, ?_, ?_, ?_, ?_⟩
  · rw [hnames]
    simp [hbr, hbs, hrs, hbr.symm, hbs.symm, hrs.symm]
  · have := congrArg List.length hnames
    simpa [Template.names] using this
  · exact decorator_bucketAt lib xformer context serviceName _ S3Bucket S3Key buildID
      awsSession noop logger hbr hbs
  · exact decorator_roleAt lib xformer context serviceName _ S3Bucket S3Key buildID
      awsSession noop logger hrs
  · exact decorator_streamAt lib xformer context serviceName _ S3Bucket S3Key buildID
      awsSession noop logger

/-- Witness of C5: the sample allocator on the empty template. -/
theorem allocated_names_distinct_witness :
    CollisionFree sampleNames ∧
    DistinctNames sampleNames ∧
    (newFirehoseDecorator sampleNames "Xformer" () "TransformerStack"
        { Description := "", Resources := [] } "bucket" "key" "build" () false
        ()).template.names = ["FirehoseStream", "FirehoseRole", "FirehoseBucket"] :=
  have h : CollisionFree sampleNames := fun _ _ e => e
  have t := allocated_names_distinct sampleNames "Xformer" () "TransformerStack" "bucket" "key"
    "build" () false () "" h
  ⟨h, t.1, t.2.1⟩

/-- C7: the delivery stream the decorator inserts carries BufferingHints with
IntervalInSeconds = 60 and SizeInMBs = 50, both strictly positive, the
CompressionFormat "UNCOMPRESSED" and the Prefix "firehose/", and the decorator
returns nil. -/
theorem stream_buffering_hints :
    ∃ stream config hints,
      (newFirehoseDecorator lib xformer context serviceName template S3Bucket S3Key buildID
          awsSession noop logger).template.streamAt (deliveryStreamResource lib) =
        some stream ∧
      stream.ExtendedS3DestinationConfiguration = some config ∧
      config.BufferingHints = some hints ∧
      hints.IntervalInSeconds = 60 ∧ hints.SizeInMBs = 50 ∧
      0 < hints.IntervalInSeconds ∧ 0 < hints.SizeInMBs ∧
      config.CompressionFormat = .Literal "UNCOMPRESSED" ∧
      config.Prefix = .Literal "firehose/" ∧
      (newFirehoseDecorator lib xformer context serviceName template S3Bucket S3Key buildID
          awsSession noop logger).err = none := by
  refine ⟨deliveryStream lib xformer, _, _, ?_, rfl, rfl, rfl, rfl, ?_, ?_, rfl, rfl, rfl⟩
  · exact decorator_streamAt lib xformer context serviceName template S3Bucket S3Key buildID
      awsSession noop logger
  · decide
  · decide

/-- C8: every statement of the role the decorator adds satisfies the
PolicyStatement invariant.  The one assume-role statement is principal-only
(no resource) with effect Allow, the single action sts:AssumeRole, the Kinesis
Firehose service principal and exactly one condition, StringEquals of
sts:ExternalId against Ref AWS::AccountId; each of the two capability
statements has effect Allow, a non-empty action list and a non-empty resource
list; no statement has effect Deny.  The role and stream names are taken to be
distinct. -/
theorem role_statements_invariant (h : iamRoleResource lib ≠ deliveryStreamResource lib) :
    ∃ role assume,
      (newFirehoseDecorator lib xformer context serviceName template S3Bucket S3Key buildID
          awsSession noop logger).template.roleAt (iamRoleResource lib) = some role ∧
      (∀ s ∈ role.statements, s.Invariant ∧ s.Effect ≠ "Deny") ∧
      role.AssumeRolePolicyDocument.Statement = [assume] ∧
      assume.Effect = "Allow" ∧
      assume.Action = ["sts:AssumeRole"] ∧
      assume.Resource = [] ∧
      assume.Principal = some { Service := [KinesisFirehosePrincipal] } ∧
      assume.Condition =
        [{ operator := "StringEquals", key := "sts:ExternalId", value := .Ref "AWS::AccountId" }] ∧
      ((newFirehoseDecorator lib xformer context serviceName template S3Bucket S3Key buildID
          awsSession noop logger).template.capabilityStatements (iamRoleResource lib)).length =
        2 ∧
      (∀ s ∈ (newFirehoseDecorator lib xformer context serviceName template S3Bucket S3Key
          buildID awsSession noop logger).template.capabilityStatements (iamRoleResource lib),
        s.Effect = "Allow" ∧ s.Action ≠ [] ∧ s.Resource ≠ []) := by
  refine ⟨iamRole lib xformer, assumeRoleStatement, ?_, ?_, rfl, rfl, rfl, rfl, rfl, rfl, ?_, ?_⟩
  · exact decorator_roleAt lib xformer context serviceName template S3Bucket S3Key buildID
      awsSession noop logger h
  · intro s hs
    simp only [IAMRole.statements, iamRole, List.map_cons, List.map_nil, List.flatten_cons,
      List.flatten_nil, List.append_nil, List.cons_append, List.nil_append, List.mem_cons,
      List.mem_singleton, List.not_mem_nil, or_false] at hs
    rcases hs with rfl | rfl | rfl
    · refine ⟨⟨Or.inl rfl, ?_, Or.inr rfl⟩, ?_⟩
      · simp [assumeRoleStatement, IAMPrincipalBuilder.ToPolicyStatement,
          IAMBuilder.ForPrincipals, IAMBuilder.WithCondition, Allow]
      · simp [assumeRoleStatement, IAMPrincipalBuilder.ToPolicyStatement,
          IAMBuilder.ForPrincipals, IAMBuilder.WithCondition, Allow]
    · refine ⟨⟨Or.inl rfl, ?_, Or.inl ?_⟩, ?_⟩ <;> simp [bucketStatement]
    · refine ⟨⟨Or.inl rfl, ?_, Or.inl ?_⟩, ?_⟩ <;>
        simp [invokeStatement, IAMResourceBuilder.ToPolicyStatement, IAMResourceBuilder.Attr,
          IAMBuilder.ForResource, Allow]
  · simp [decorator_capabilityStatements, h]
  · intro s hs
    rw [decorator_capabilityStatements lib xformer context serviceName template S3Bucket S3Key
      buildID awsSession noop logger h] at hs
    simp only [List.mem_cons, List.mem_singleton, List.not_mem_nil, or_false] at hs
    rcases hs with rfl | rfl
    · simp [bucketStatement]
    · simp [invokeStatement, IAMResourceBuilder.ToPolicyStatement, IAMResourceBuilder.Attr,
        IAMBuilder.ForResource, Allow]

/-- Witness of C8 on the sample template. -/
theorem role_statements_invariant_witness :
    iamRoleResource sampleNames ≠ deliveryStreamResource sampleNames ∧
    ∃ role assume,
      sampleDecorated.roleAt "FirehoseRole" = some role ∧
      (∀ s ∈ role.statements, s.Invariant ∧ s.Effect ≠ "Deny") ∧
      role.AssumeRolePolicyDocument.Statement = [assume] ∧
      assume.Effect = "Allow" ∧
      assume.Action = ["sts:AssumeRole"] ∧
      assume.Resource = [] ∧
      assume.Principal = some { Service := ["firehose.amazonaws.com"] } ∧
      assume.Condition =
        [{ operator := "StringEquals", key := "sts:ExternalId", value := .Ref "AWS::AccountId" }] ∧
      (sampleDecorated.capabilityStatements "FirehoseRole").length = 2 ∧
      (∀ s ∈ sampleDecorated.capabilityStatements "FirehoseRole",
        s.Effect = "Allow" ∧ s.Action ≠ [] ∧ s.Resource ≠ []) :=
  have h : iamRoleResource sampleNames ≠ deliveryStreamResource sampleNames := by
    simp [iamRoleResource, deliveryStreamResource, sampleNames]
  ⟨h, role_statements_invariant sampleNames "Xformer" () "TransformerStack" sampleTemplate
    "bucket" "key" "build" () false () h⟩

/-- C9: in every template the decorator produces, the entry under the
FirehoseBucket logical name is an S3 bucket with versioning Status "Enabled"
and DeletionPolicy "Retain".  The bucket name is taken to differ from the role
and stream names. -/
theorem bucket_retained (hr : s3BucketResource lib ≠ iamRoleResource lib)
    (hs : s3BucketResource lib ≠ deliveryStreamResource lib) :
    ∃ entry bucket,
      (newFirehoseDecorator lib xformer context serviceName template S3Bucket S3Key buildID
          awsSession noop logger).template.get? (s3BucketResource lib) = some entry ∧
      entry.Properties = .S3Bucket bucket ∧
      bucket.VersioningConfiguration = some { Status := .Literal "Enabled" } ∧
      entry.DeletionPolicy = "Retain" :=
  ⟨_, s3Bucket, decorator_bucket_entry lib xformer context serviceName template S3Bucket S3Key
    buildID awsSession noop logger hr hs, rfl, rfl, rfl⟩

/-- Witness of C9 on the sample template. -/
theorem bucket_retained_witness :
    s3BucketResource sampleNames ≠ iamRoleResource sampleNames ∧
    s3BucketResource sampleNames ≠ deliveryStreamResource sampleNames ∧
    ∃ entry bucket,
      sampleDecorated.get? "FirehoseBucket" = some entry ∧
      entry.Properties = .S3Bucket bucket ∧
      bucket.VersioningConfiguration = some { Status := .Literal "Enabled" } ∧
      entry.DeletionPolicy = "Retain" :=
  have hr : s3BucketResource sampleNames ≠ iamRoleResource sampleNames := by
    simp [iamRoleResource, s3BucketResource, sampleNames]
  have hs : s3BucketResource sampleNames ≠ deliveryStreamResource sampleNames := by
    simp [deliveryStreamResource, s3BucketResource, sampleNames]
  ⟨hr, hs, bucket_retained sampleNames "Xformer" () "TransformerStack" sampleTemplate
    "bucket" "key" "build" () false () hr hs⟩

/-- C10: the decorator only writes the three entries it allocates.  For every
template and every logical name other than the stream, role and bucket names,
the entry under that name after the run (present or absent, with its DependsOn
and DeletionPolicy) is the entry before the run; the template's description
is untouched; and every name that had an entry before the run has one after
it. -/
theorem decorator_frame (name : String) (hb : name ≠ s3BucketResource lib)
    (hr : name ≠ iamRoleResource lib) (hs : name ≠ deliveryStreamResource lib) :
    (newFirehoseDecorator lib xformer context serviceName template S3Bucket S3Key buildID
        awsSession noop logger).template.get? name = template.get? name ∧
    (newFirehoseDecorator lib xformer context serviceName template S3Bucket S3Key buildID
        awsSession noop logger).template.Description = template.Description ∧
    ∀ other, (template.get? other).isSome = true →
      ((newFirehoseDecorator lib xformer context serviceName template S3Bucket S3Key buildID
        awsSession noop logger).template.get? other).isSome = true := by
  refine ⟨decorator_other_entry lib xformer context serviceName template S3Bucket S3Key buildID
    awsSession noop logger name hb hr hs, rfl, ?_⟩
  intro other hsome
  by_cases h1 : other = deliveryStreamResource lib
  · rw [h1, decorator_stream_entry]
    rfl
  · by_cases h2 : other = iamRoleResource lib
    · rw [h2, decorator_role_entry lib xformer context serviceName template S3Bucket S3Key
        buildID awsSession noop logger (fun e => h1 (h2.trans e))]
      rfl
    · by_cases h3 : other = s3BucketResource lib
      · rw [h3, decorator_bucket_entry lib xformer context serviceName template S3Bucket S3Key
          buildID awsSession noop logger (fun e => h2 (h3.trans e)) (fun e => h1 (h3.trans e))]
        rfl
      · rw [decorator_other_entry lib xformer context serviceName template S3Bucket S3Key
          buildID awsSession noop logger other h3 h2 h1]
        exact hsome

/-- Witness of C10: the hook's own entry "Xformer" of the sample template. -/
theorem decorator_frame_witness :
    "Xformer" ≠ s3BucketResource sampleNames ∧
    "Xformer" ≠ iamRoleResource sampleNames ∧
    "Xformer" ≠ deliveryStreamResource sampleNames ∧
    sampleDecorated.get? "Xformer" = sampleTemplate.get? "Xformer" ∧
    (sampleDecorated.get? "Xformer").isSome = true :=
  have hb : "Xformer" ≠ s3BucketResource sampleNames := by
    simp [s3BucketResource, sampleNames]
  have hr : "Xformer" ≠ iamRoleResource sampleNames := by
    simp [iamRoleResource, sampleNames]
  have hs : "Xformer" ≠ deliveryStreamResource sampleNames := by
    simp [deliveryStreamResource, sampleNames]
  have t := decorator_frame sampleNames "Xformer" () "TransformerStack" sampleTemplate
    "bucket" "key" "build" () false () "Xformer" hb hr hs
  ⟨hb, hr, hs, t.1, t.2.2 "Xformer" rfl⟩

/-- C6, as the code has it: the decorator never rejects a name that is already
taken.  For every template it returns nil, and after the run the entry under
the stream name is the new delivery stream, the entry under the role name is
the new role (when the role name differs from the stream name) and the entry
under the bucket name is the new bucket (when the bucket name differs from the
other two), whatever the template held under these names before. -/
theorem decorator_displaces :
    (newFirehoseDecorator lib xformer context serviceName template S3Bucket S3Key buildID
        awsSession noop logger).err = none ∧
    (newFirehoseDecorator lib xformer context serviceName template S3Bucket S3Key buildID
        awsSession noop logger).template.get? (deliveryStreamResource lib) =
      some { DeletionPolicy := "", DependsOn := [iamRoleResource lib],
             Properties := .KinesisFirehoseDeliveryStream (deliveryStream lib xformer) } ∧
    (iamRoleResource lib ≠ deliveryStreamResource lib →
      (newFirehoseDecorator lib xformer context serviceName template S3Bucket S3Key buildID
          awsSession noop logger).template.get? (iamRoleResource lib) =
        some { DeletionPolicy := "", DependsOn := [],
               Properties := .IAMRole (iamRole lib xformer) }) ∧
    (s3BucketResource lib ≠ iamRoleResource lib →
      s3BucketResource lib ≠ deliveryStreamResource lib →
      (newFirehoseDecorator lib xformer context serviceName template S3Bucket S3Key buildID
          awsSession noop logger).template.get? (s3BucketResource lib) =
        some { DeletionPolicy := "Retain", DependsOn := [],
               Properties := .S3Bucket s3Bucket }) :=
  ⟨rfl,
    decorator_stream_entry lib xformer context serviceName template S3Bucket S3Key buildID
      awsSession noop logger,
    decorator_role_entry lib xformer context serviceName template S3Bucket S3Key buildID
      awsSession noop logger,
    decorator_bucket_entry lib xformer context serviceName template S3Bucket S3Key buildID
      awsSession noop logger⟩

/-- C6 fails as stated.  A second run on the template the decorator has
already been applied to, where all three names are taken, returns nil and
leaves the same template; and a run on a template that holds the hook's own
Lambda function under the name "FirehoseRole" returns nil with that entry
replaced by the role. -/
theorem collision_not_rejected :
    (sampleDecorated.get? "FirehoseStream").isSome = true ∧
    (sampleDecorated.get? "FirehoseRole").isSome = true ∧
    (sampleDecorated.get? "FirehoseBucket").isSome = true ∧
    (newFirehoseDecorator sampleNames "Xformer" () "TransformerStack" sampleDecorated
        "bucket" "key" "build" () false ()).err = none ∧
    (newFirehoseDecorator sampleNames "Xformer" () "TransformerStack" sampleDecorated
        "bucket" "key" "build" () false ()).template = sampleDecorated ∧
    collidingTemplate.get? "FirehoseRole" =
      some { DeletionPolicy := "", DependsOn := [],
             Properties := .Other "AWS::Lambda::Function" [("Handler", .Literal "main")] } ∧
    (newFirehoseDecorator sampleNames "FirehoseRole" () "TransformerStack" collidingTemplate
        "bucket" "key" "build" () false ()).err = none ∧
    (newFirehoseDecorator sampleNames "FirehoseRole" () "TransformerStack" collidingTemplate
        "bucket" "key" "build" () false ()).template.get? "FirehoseRole" =
      some { DeletionPolicy := "", DependsOn := [],
             Properties := .IAMRole (iamRole sampleNames "FirehoseRole") } :=
  ⟨rfl, rfl, rfl, rfl, rfl, rfl, rfl, rfl⟩

end Claims

end SpartaXForm
